import Mathlib

/-!
Shallow embedding of the CourtScraper backend (Flask app plus four scraper
modules) and proofs about the claims of its specification.

Conventions used throughout:
- Python `str` values are Lean `String`s; Python `bytes` are `List Nat`
  (one entry per byte).
- Python dicts are association lists `List (key × value)`; an absent dict key
  on a record is an `Option` field set to `none`.
- Network traffic and library calls (requests, BeautifulSoup, EasyOCR, PyPDF2)
  are abstracted into explicit environment values passed to each function:
  the function body then mirrors the source's control flow over the parsed
  response exactly.  Exception paths caught by the source's try/except blocks
  are modelled by the corresponding environment constructors.
-/

/-- Python str.strip() whitespace class: space, tab, LF, CR, VT, FF. -/
def pyIsSpace (c : Char) : Bool :=
  c = ' ' || c = '\t' || c = '\n' || c = '\x0d' || c = '\x0b' || c = '\x0c'

/-- Characters of a string with leading and trailing Python whitespace removed. -/
def pyStripChars (cs : List Char) : List Char :=
  ((cs.dropWhile pyIsSpace).reverse.dropWhile pyIsSpace).reverse

/-- Python str.strip(). -/
def pyStrip (s : String) : String := ⟨pyStripChars s.data⟩

/-- Python str.lower() (ASCII case folding, which is what the scraped ASCII data uses). -/
def pyLower (s : String) : String := ⟨s.data.map Char.toLower⟩

/-- Python str.upper() (ASCII case folding). -/
def pyUpper (s : String) : String := ⟨s.data.map Char.toUpper⟩

/-- Substring test on character lists: Python `needle in hay`. -/
def listContains (needle hay : List Char) : Bool :=
  hay.tails.any (fun t => needle.isPrefixOf t)

/-- Python `needle in hay` on strings. -/
def pyIn (needle hay : String) : Bool := listContains needle.data hay.data

/-- Python dict assignment `d[k] = v`: overwrite the existing binding in place,
otherwise append the new binding at the end (insertion order). -/
def pyDictInsert (d : List (String × String)) (k v : String) : List (String × String) :=
  if d.any (fun e => e.1 = k) then d.map (fun e => if e.1 = k then (k, v) else e)
  else d ++ [(k, v)]

/-- Case-insensitive startswith, modelling an anchored IGNORECASE regex alternative. -/
def startsWithCI (pre s : String) : Bool :=
  (pyLower pre).data.isPrefixOf (pyLower s).data

/-- Python single-character str.split on a character list. -/
def pySplitChar (sep : Char) : List Char → List (List Char)
  | [] => [[]]
  | c :: rest =>
      let r := pySplitChar sep rest
      if c = sep then [] :: r
      else
        match r with
        | h :: t => (c :: h) :: t
        | [] => [[c]]

/-- Python str.split with a one-character separator. -/
def pySplit (sep : Char) (s : String) : List String :=
  (pySplitChar sep s.data).map (fun l => ⟨l⟩)

namespace CaptchaOcr

/-- Character class kept by clean_captcha_text's final regex filter: a-z and 0-9. -/
def isLowerAlnum (c : Char) : Bool :=
  ('a' ≤ c && c ≤ 'z') || ('0' ≤ c && c ≤ '9')

/-- clean_captcha_text (captcha_ocr.py lines 123-142): strip whitespace, lowercase,
then delete every character outside [a-z0-9]. -/
def clean_captcha_text (text : String) : String :=
  ⟨((pyStrip text).data.map Char.toLower).filter isLowerAlnum⟩

/-- Outcome of the OCR attempt inside detect_captcha_text's try block:
the EasyOCR reader may be unavailable (get_reader returned None), any step
may raise (caught by the blanket except), or readtext returns a list of
detected text fragments. -/
inductive OcrOutcome
  | readerUnavailable : OcrOutcome
  | exceptionRaised : OcrOutcome
  | fragments (frags : List String) : OcrOutcome

/-- Python ' '.join(frags). -/
def joinSpace : List String → String
  | [] => ""
  | [s] => s
  | s :: rest => s ++ " " ++ joinSpace rest

/-- detect_captcha_text (captcha_ocr.py lines 32-78): if the reader is missing or
anything in the body raises, return the empty string; otherwise join the detected
fragments with spaces and clean the result. -/
def detect_captcha_text (ocr : List Nat → OcrOutcome) (image_bytes : List Nat) : String :=
  match ocr image_bytes with
  | .readerUnavailable => ""
  | .exceptionRaised => ""
  | .fragments frags => clean_captcha_text (joinSpace frags)

end CaptchaOcr

namespace DistrictCauseList

/-- Result of fetch_establishments, recording whether the network fetch to
fillCourtEstablishment was performed.  `noFetch` is the early return taken
before any request is issued. -/
inductive EstResult
  | noFetch (m : List (String × String)) : EstResult
  | fetched (m : List (String × String)) : EstResult
  deriving DecidableEq

/-- Environment for the establishment fetch: the (value, text) pairs of the
option elements parsed out of a successful response's establishment_list,
or `none` when the request failed, returned non-200, lacked the key, or raised. -/
abbrev EstFetchEnv := Option (List (String × String))

/-- Dropdown extraction loop shared by the fetch functions: for each option,
strip the value attribute, take the stripped text, and insert text ↦ value
into the dict when the value is nonempty and not the literal "0". -/
def extractOptions (opts : List (String × String)) : List (String × String) :=
  opts.foldl
    (fun d e =>
      let value := pyStrip e.1
      let text := e.2
      if value ≠ "" ∧ value ≠ "0" then pyDictInsert d text value else d)
    []

/-- fetch_establishments (district_causelist_scraper.py lines 193-249).
The court complex code has the composite form code@estCodes@flag; a missing
third component defaults the flag to Y.  Flag N or 0 short-circuits with the
sentinel one-entry mapping carrying the embedded establishment codes and
performs no fetch; otherwise the fillCourtEstablishment request is made and
its option list is extracted. -/
def fetch_establishments (env : EstFetchEnv) (court_complex_code : String) : EstResult :=
  let court_arr := pySplit (Char.ofNat 64) court_complex_code
  let flag := court_arr.getD 2 "Y"
  if flag = "N" ∨ flag = "0" then
    .noFetch [("__no_establishment__", court_arr.getD 1 "0")]
  else
    match env with
    | none => .fetched []
    | some opts => .fetched (extractOptions opts)

/-- The establishment code fetch_judges settles on before issuing its requests
(district_causelist_scraper.py lines 292-308): when the caller passed no
establishment code, or passed the sentinel key, the code embedded in the
composite complex code is used (for every flag value); otherwise the caller's
code is used as given. -/
def fetch_judges_est_code (court_complex_code : String) (est_code : Option String) : String :=
  let court_arr := pySplit (Char.ofNat 64) court_complex_code
  match est_code with
  | none => court_arr.getD 1 ""
  | some e => if e = "__no_establishment__" then court_arr.getD 1 "" else e

/-- The establishment code passed to the set_data call (line 311): empty when
the flag is N or 0, the settled code otherwise. -/
def fetch_judges_set_data_est_code (court_complex_code : String) (est_code : Option String) :
    String :=
  let court_arr := pySplit (Char.ofNat 64) court_complex_code
  let flag := court_arr.getD 2 "Y"
  if flag = "N" ∨ flag = "0" then "" else fetch_judges_est_code court_complex_code est_code

/-- The request parameters of fetch_judges' fillCauseList call (lines 316-324):
the bare complex code and the settled establishment code. -/
structure JudgeRequest where
  court_complex : String
  est_code : String
  deriving DecidableEq

/-- fetch_judges' judge-fetch step (district_causelist_scraper.py lines 283-328),
projected onto the request it sends: set_data first, then fillCauseList with
the settled establishment code. -/
def fetch_judges_request (court_complex_code : String) (est_code : Option String) :
    JudgeRequest :=
  { court_complex := (pySplit (Char.ofNat 64) court_complex_code).getD 0 court_complex_code
    est_code := fetch_judges_est_code court_complex_code est_code }

end DistrictCauseList

namespace PdfValidation

/-- The four-byte PDF magic header %PDF. -/
def pdfMagic : List Nat := [0x25, 0x50, 0x44, 0x46]

/-- The three-byte UTF-8 byte-order mark. -/
def bomBytes : List Nat := [0xEF, 0xBB, 0xBF]

/-- BOM stripping as done by proxy_pdf (app.py lines 726-728): drop the first
three bytes when they are exactly the UTF-8 BOM. -/
def stripBom (b : List Nat) : List Nat :=
  if bomBytes.isPrefixOf b then b.drop 3 else b

/-- Classification outcome of the proxy_pdf endpoint on downloaded bytes. -/
inductive ProxyOutcome
  | errTooSmall : ProxyOutcome
  | errNotAPdf : ProxyOutcome
  | servePdf (b : List Nat) : ProxyOutcome
  deriving DecidableEq

/-- proxy_pdf's validation of downloaded bytes (app.py lines 699-747): anything
under 1000 bytes is rejected up front (the sub-branch picks among three error
payloads: not-uploaded-yet, session-expired, or generic failure); otherwise the
optional BOM is stripped and the result must start with %PDF to be served. -/
def proxy_pdf_classify (pdf_bytes : List Nat) : ProxyOutcome :=
  if pdf_bytes.length < 1000 then .errTooSmall
  else
    let b := stripBom pdf_bytes
    if pdfMagic.isPrefixOf b then .servePdf b else .errNotAPdf

/-- The district scraper's PDF signature check (district_court_scraper.py lines
787 and 812): the bytes must start with %PDF literally; no BOM is stripped. -/
def districtIsPdf (content : List Nat) : Bool := pdfMagic.isPrefixOf content

end PdfValidation

namespace App

/-- An order dict as it flows through the app: each field models one dict key,
with `none` standing for an absent key.  The High Court parser fills
order_number/order_on/judge/order_date/view_link; the District Court parser
fills order_number/order_date/details and optionally pdf_link; the download
steps later add local_pdf_path (High Court) or pdf_id and pdf_url (District). -/
structure Order where
  order_number : Option String := none
  order_on : Option String := none
  judge : Option String := none
  order_date : Option String := none
  details : Option String := none
  view_link : Option String := none
  pdf_link : Option String := none
  pdf_id : Option String := none
  pdf_url : Option String := none
  local_pdf_path : Option String := none
  deriving DecidableEq

/-- The slice of a case_data dict that the search-session bookkeeping reads:
the optional orders list. -/
structure CaseData where
  orders : Option (List Order) := none
  deriving DecidableEq

/-- One cached PDF: content bytes, display filename, creation timestamp. -/
structure PdfEntry where
  content : List Nat
  filename : String
  timestamp : Nat
  deriving DecidableEq

/-- The in-memory pdf_cache dict: pdf_id ↦ entry. -/
abbrev PdfCache := List (String × PdfEntry)

/-- The current_search_session global of app.py. -/
structure CurrentSearchSession where
  session_id : Option String
  pdf_ids : List String
  timestamp : Option Nat
  deriving DecidableEq

/-- The process-wide mutable state the epoch logic touches. -/
structure AppState where
  pdf_cache : PdfCache
  current_search_session : CurrentSearchSession
  deriving DecidableEq

/-- Python `del pdf_cache[k]` guarded by `if k in pdf_cache`: drop the binding. -/
def cacheDelete (cache : PdfCache) (k : String) : PdfCache :=
  cache.filter (fun e => !(e.1 = k))

/-- The keys present in the cache. -/
def cacheKeys (cache : PdfCache) : List String := cache.map Prod.fst

/-- cleanup_old_session (app.py lines 56-85): delete every pdf_id of the live
session from the cache (and its mirrored disk files, outside this model), then
reset the session record to the empty one. -/
def cleanup_old_session (st : AppState) : AppState :=
  { pdf_cache := st.current_search_session.pdf_ids.foldl cacheDelete st.pdf_cache
    current_search_session := { session_id := none, pdf_ids := [], timestamp := none } }

/-- The pdf_id extraction of register_search_session (app.py lines 98-102):
collect the pdf_id of every order that has one, in order. -/
def extract_pdf_ids (case_data : CaseData) : List String :=
  match case_data.orders with
  | none => []
  | some os => os.filterMap (fun o => o.pdf_id)

/-- register_search_session (app.py lines 87-111): clean up the previous
session's cached PDFs, then make the new search (fresh uuid `sid`, the pdf_ids
extracted from case_data, current time `now`) the live session. -/
def register_search_session (st : AppState) (case_data : CaseData) (sid : String) (now : Nat) :
    AppState :=
  let st1 := cleanup_old_session st
  { pdf_cache := st1.pdf_cache
    current_search_session :=
      { session_id := some sid, pdf_ids := extract_pdf_ids case_data, timestamp := some now } }

/-- The registry of active scraper sessions, keyed by uuid string
(the active_sessions dict of app.py, viewed through its key set). -/
abbrev SessionRegistry := Finset String

/-- The part of a verify endpoint's response relevant to session bookkeeping:
either the 400 invalid-or-expired-session payload produced by the guard, or a
completed handler run whose success mirrors the scraper call's outcome. -/
inductive VerifyOutcome
  | invalidSession : VerifyOutcome
  | completed (success : Bool) : VerifyOutcome
  deriving DecidableEq

/-- The shared session guard `if not session_id or session_id not in
active_sessions` of the four verify endpoints: an empty (falsy) or unknown key
fails the guard. -/
def sessionKnown (reg : SessionRegistry) (sid : String) : Bool :=
  if sid = "" then false else decide (sid ∈ reg)

/-- verify_high_court_captcha (app.py lines 283-348) as a registry transition:
unknown session gives the InvalidSession response and leaves the registry
unchanged; a known session runs the search (search_case never lets an exception
escape, so the following `del active_sessions[session_id]` always runs) and the
entry is removed whether the search succeeded or not. -/
def verify_high_court_captcha (reg : SessionRegistry) (sid : String) (searchOk : Bool) :
    VerifyOutcome × SessionRegistry :=
  if sessionKnown reg sid then (.completed searchOk, reg.erase sid)
  else (.invalidSession, reg)

/-- verify_district_captcha (app.py lines 558-613): same single-use shape as the
High Court endpoint; the entry is deleted right after search_case returns. -/
def verify_district_captcha (reg : SessionRegistry) (sid : String) (searchOk : Bool) :
    VerifyOutcome × SessionRegistry :=
  if sessionKnown reg sid then (.completed searchOk, reg.erase sid)
  else (.invalidSession, reg)

/-- verify_causelist_captcha (app.py lines 916-1007): the High Court cause-list
variant deliberately keeps the session entry after the verify attempt (the
source comments that the session is still needed for downloading PDFs later),
so the registry is returned unchanged on the completed path as well. -/
def verify_causelist_captcha (reg : SessionRegistry) (sid : String) (fetchOk : Bool) :
    VerifyOutcome × SessionRegistry :=
  if sessionKnown reg sid then (.completed fetchOk, reg)
  else (.invalidSession, reg)

/-- verify_district_causelist_captcha (app.py lines 1249-1318): deletes the
entry after process_cause_list_search returns (the non-exceptional path). -/
def verify_district_causelist_captcha (reg : SessionRegistry) (sid : String) (searchOk : Bool) :
    VerifyOutcome × SessionRegistry :=
  if sessionKnown reg sid then (.completed searchOk, reg.erase sid)
  else (.invalidSession, reg)

end App

namespace HighCourt

/-- A parsed HTML table: its rows, each a list of cell texts (already
whitespace-stripped, as get_text(strip=True) returns them). -/
structure Table where
  rows : List (List String)
  deriving DecidableEq

/-- A row of the High Court order table.  `link4` models `cells[4].find('a')`:
`none` when cell 4 holds no anchor, `some h` when it holds an anchor whose
href attribute is `h` (`some none` for an anchor carrying no href, which makes
the original raise KeyError into its blanket except). -/
structure HcOrderRow where
  cells : List String
  link4 : Option (Option String)
  deriving DecidableEq

/-- The structural features of a case-history HTML document that
HCServicesCompleteScraper.parse_case_history looks up by class name: each
field is the soup.find result for one marker, `none` when absent. -/
structure HcHtml where
  case_details_table : Option Table := none
  table_r : Option Table := none
  petitioner_span : Option String := none
  respondent_span : Option String := none
  order_table : Option (List HcOrderRow) := none
  deriving DecidableEq

/-- The record parse_case_history builds (court_info, which only echoes the
scraper's own configuration fields, is omitted). -/
structure HcCaseData where
  case_details : List (String × String) := []
  case_status : List (String × String) := []
  petitioner : Option String := none
  respondent : Option String := none
  orders : List App.Order := []
  deriving DecidableEq

/-- Python either returns the filled record or, when the body raised (the only
in-model raiser is an order-row anchor without href), the bare empty dict. -/
inductive HcParseResult
  | ok (d : HcCaseData) : HcParseResult
  | emptyDict : HcParseResult
  deriving DecidableEq

/-- Consecutive cell pairing of the High Court details loop
`for i in range(0, len(cells), 2): if i+1 < len(cells)`. -/
def pairUp : List String → List (String × String)
  | a :: b :: rest => (a, b) :: pairUp rest
  | _ => []

/-- The details extraction (high_court_scraper.py lines 259-269): every row
with at least two cells contributes its consecutive cell pairs. -/
def hcDetailsOf (t : Table) : List (String × String) :=
  t.rows.foldl
    (fun d cells =>
      if 2 ≤ cells.length then (pairUp cells).foldl (fun d2 p => pyDictInsert d2 p.1 p.2) d
      else d)
    []

/-- The status extraction (lines 272-280): only rows with exactly two cells. -/
def hcStatusOf (t : Table) : List (String × String) :=
  t.rows.foldl
    (fun d cells =>
      match cells with
      | [k, v] => pyDictInsert d k v
      | _ => d)
    []

/-- The order extraction (lines 292-305): skip the header row, then each row
with at least five cells yields an order dict; the view_link key holds the
anchor's href when cell 4 has an anchor, else None. -/
def hcOrdersOf (rows : List HcOrderRow) : List App.Order :=
  (rows.drop 1).foldr
    (fun r acc =>
      if 5 ≤ r.cells.length then
        { order_number := some (r.cells.getD 0 "")
          order_on := some (r.cells.getD 1 "")
          judge := some (r.cells.getD 2 "")
          order_date := some (r.cells.getD 3 "")
          view_link := match r.link4 with
            | some (some h) => some h
            | some none => none
            | none => none : App.Order } :: acc
      else acc)
    []

/-- Whether processing the order table raises: a processed row (past the
header, at least five cells) whose cell-4 anchor has no href makes
`cells[4].find('a')['href']` raise KeyError. -/
def hcParseRaises (doc : HcHtml) : Bool :=
  match doc.order_table with
  | none => false
  | some rows => (rows.drop 1).any (fun r => 5 ≤ r.cells.length && r.link4 = some none)

/-- parse_case_history (high_court_scraper.py lines 241-309): each table found
by its class marker fills its sub-structure; a missing marker leaves that
sub-structure at its initial empty value; if the body raises, the whole result
collapses to the empty dict. -/
def parse_case_history (doc : HcHtml) : HcParseResult :=
  if hcParseRaises doc then .emptyDict
  else
    .ok
      { case_details := match doc.case_details_table with
          | some t => hcDetailsOf t
          | none => []
        case_status := match doc.table_r with
          | some t => hcStatusOf t
          | none => []
        petitioner := doc.petitioner_span
        respondent := doc.respondent_span
        orders := match doc.order_table with
          | some rows => hcOrdersOf rows
          | none => [] }

/-- View of the parse result as the dict app.py reads through .get: the empty
dict has no orders key at all. -/
def toAppCaseData : HcParseResult → App.CaseData
  | .ok d => { orders := some d.orders }
  | .emptyDict => { orders := none }

/-- The save_dir argument actually handed to the High Court download helpers at
runtime: either a genuine path string, or — as app.py line 325 does — the
in-memory pdf_cache dict itself. -/
inductive SaveDirArg
  | path (s : String) : SaveDirArg
  | cacheDict (c : App.PdfCache) : SaveDirArg

/-- download_order_pdf (high_court_scraper.py lines 311-368), abstracted over
the network by `download` (the saved backend-relative path when the GET
returned 200, none otherwise).  When save_dir is the pdf_cache dict,
`os.path.join(project_root, save_dir)` raises TypeError inside the guarded
body, the blanket except catches it, and the function returns None before any
request is made. -/
def download_order_pdf (download : String → Option String) (view_link : String)
    (save_dir : Option SaveDirArg) : Option String :=
  match save_dir with
  | some (.cacheDict _) => none
  | some (.path _) => download view_link
  | none => download view_link

/-- download_all_orders (high_court_scraper.py lines 370-391): for each order
carrying a view_link, attempt the download; on success attach the local path
under the local_pdf_path key.  No other key is ever written. -/
def download_all_orders (download : String → Option String) (case_data : App.CaseData)
    (save_dir : Option SaveDirArg) : App.CaseData :=
  match case_data.orders with
  | none => case_data
  | some os =>
      { orders := some (os.map (fun o =>
          match o.view_link with
          | some vl =>
              match download_order_pdf download vl save_dir with
              | some p => { o with local_pdf_path := some p }
              | none => o
          | none => o)) }

/-- The JSON body of the showRecords search response, as far as search_case
inspects it: the Error field (absent modelled as none) and an opaque payload
identity so distinct successful responses stay distinct. -/
structure HcJson where
  errorField : Option String
  payloadId : Nat
  deriving DecidableEq

/-- Environment of one search_case call: the POST either raised (caught by the
blanket except), or produced a status code with a body that either parses as
JSON or raises on .json() (also swallowed). -/
inductive HcSearchOutcome
  | transportError : HcSearchOutcome
  | http (status : Nat) (body : Option HcJson) : HcSearchOutcome
  deriving DecidableEq

/-- search_case (high_court_scraper.py lines 185-214): the parsed JSON is
returned when the status is 200 and its Error field is the empty string; every
other path — wrong captcha, no record, remote error text, non-200, JSON decode
failure, transport exception — returns the single value None. -/
def search_case (outcome : HcSearchOutcome) : Option HcJson :=
  match outcome with
  | .transportError => none
  | .http status body =>
      if status = 200 then
        match body with
        | some j => if j.errorField = some "" then some j else none
        | none => none
      else none

end HighCourt

namespace DistrictCourt

/-- A parsed HTML table as a list of rows of stripped cell texts. -/
structure Table where
  rows : List (List String)
  deriving DecidableEq

/-- A petitioner/respondent table: its cells, each already split at the br
tags into the rendered line fragments (raw, before whitespace collapsing). -/
structure PartyTable where
  cells : List (List String)
  deriving DecidableEq

/-- A hearing-history row: cell texts plus the onclick of the anchor inside
cell 1 when present (`some s` for an anchor with onclick s, none otherwise). -/
structure HistoryRow where
  cells : List String
  business_onclick : Option String
  deriving DecidableEq

/-- An order-table row: cell texts plus the onclick of the anchor inside
cell 2 when present. -/
structure OrderRow where
  cells : List String
  pdf_onclick : Option String
  deriving DecidableEq

/-- The structural features DistrictCourtsScraper.parse_case_history looks up
by class name, `none` for each marker absent from the HTML. -/
structure DcHtml where
  case_details_table : Option Table := none
  case_status_table : Option Table := none
  petitioner_table : Option PartyTable := none
  respondent_table : Option PartyTable := none
  acts_table : Option Table := none
  lower_court_table : Option Table := none
  history_table : Option (List HistoryRow) := none
  order_table : Option (List OrderRow) := none
  deriving DecidableEq

/-- One party entry: the cleaned name and the advocate split out of the same
rendered line when one was inlined. -/
structure Party where
  name : String
  advocate : Option String := none
  deriving DecidableEq

/-- One acts-table entry. -/
structure ActEntry where
  act : String
  sections : String
  deriving DecidableEq

/-- One hearing-history entry. -/
structure Hearing where
  judge : String
  business_on_date : String
  hearing_date : String
  purpose : String
  business_on_date_link : Option String := none
  deriving DecidableEq

/-- The record parse_case_history builds (raw_response/search_result
attachments added later by get_case_history are kept out of the parser). -/
structure DcCaseData where
  case_details : List (String × String) := []
  case_status : List (String × String) := []
  petitioners : List Party := []
  respondents : List Party := []
  acts : List ActEntry := []
  subordinate_court : List (String × String) := []
  hearings : List Hearing := []
  orders : List App.Order := []
  deriving DecidableEq

/-- Key/value extraction shared by the details and status tables
(district_court_scraper.py lines 551-567 and 571-588): a two-cell row gives
one pair, a four-cell row gives two, anything else is skipped; empty keys or
values are dropped. -/
def kvRow (d : List (String × String)) (cells : List String) : List (String × String) :=
  match cells with
  | [k, v] => if k ≠ "" ∧ v ≠ "" then pyDictInsert d k v else d
  | [k1, v1, k2, v2] =>
      let d1 := if k1 ≠ "" ∧ v1 ≠ "" then pyDictInsert d k1 v1 else d
      if k2 ≠ "" ∧ v2 ≠ "" then pyDictInsert d1 k2 v2 else d1
  | _ => d

/-- Dict built from a details/status table. -/
def kvTable (t : Table) : List (String × String) := t.rows.foldl kvRow []

/-- Whitespace collapsing re.sub of the party loops: every whitespace run
becomes a single space, then the ends are stripped. -/
def collapseWs (cs : List Char) : List Char :=
  cs.foldr
    (fun c acc =>
      if pyIsSpace c then
        match acc with
        | ' ' :: _ => acc
        | _ => ' ' :: acc
      else c :: acc)
    []

/-- Normalized text of one rendered party line. -/
def normalizeWs (s : String) : String := pyStrip ⟨collapseWs s.data⟩

/-- The regex class [:\s-] of the advocate patterns. -/
def isAdvSep (c : Char) : Bool := c = ':' || c = '-' || pyIsSpace c

/-- First match position of the IGNORECASE pattern Advocate[:\s-]*(.+) over an
already-lowercased character list: the earliest index where the literal
advocate occurs with at least one character left after it (so the mandatory
final group can match, possibly by giving back separator characters). -/
def findAdvPos : List Char → Option Nat
  | [] => none
  | c :: t =>
      if ("advocate".data).isPrefixOf (c :: t) ∧ 8 < (c :: t).length then some 0
      else (findAdvPos t).map (· + 1)

/-- The advocate split of the petitioner loop (lines 601-607): only texts
containing the literal Advocate or advocate are examined; on a regex match the
advocate name is the stripped final group (the greedy separator run giving one
character back when it would exhaust the text) and the matched region is
deleted from the text. -/
def splitAdvocate (text : String) : String × String :=
  if pyIn "Advocate" text || pyIn "advocate" text then
    match findAdvPos (text.data.map Char.toLower) with
    | none => (text, "")
    | some i =>
        let afterTag := text.data.drop (i + 8)
        let sepRun := (afterTag.takeWhile isAdvSep).length
        let keep := min sepRun (afterTag.length - 1)
        (pyStrip ⟨text.data.take i⟩, pyStrip ⟨afterTag.drop keep⟩)
  else (text, "")

/-- Serial-number removal re.sub of the party loops: a leading digit run
followed by a closing parenthesis and optional spaces is deleted. -/
def dropNumbering (s : String) : String :=
  let ds := s.data.takeWhile Char.isDigit
  if ds ≠ [] then
    match s.data.drop ds.length with
    | ')' :: rest => ⟨rest.dropWhile pyIsSpace⟩
    | _ => s
  else s

/-- Petitioner extraction (lines 591-616): each rendered line of each cell is
normalized, the inline advocate (if any) is split out, the numbering prefix is
removed, and nonempty non-placeholder names are appended in order. -/
def petitionersOf (t : PartyTable) : List Party :=
  t.cells.foldl
    (fun d cell =>
      cell.foldl
        (fun d2 part =>
          let text := normalizeWs part
          let split := splitAdvocate text
          let name := pyStrip (dropNumbering split.1)
          if name ≠ "" ∧ name ≠ "Advocate" ∧ name ≠ "advocate" then
            d2 ++ [{ name := name
                     advocate := if split.2 ≠ "" then some split.2 else none }]
          else d2)
        d)
    []

/-- Respondent extraction (lines 619-636): advocate lines are skipped outright,
the numbering prefix is removed, and nonempty non-versus names are appended. -/
def respondentsOf (t : PartyTable) : List Party :=
  t.cells.foldl
    (fun d cell =>
      cell.foldl
        (fun d2 part =>
          let text := normalizeWs part
          if ("Advocate".data).isPrefixOf text.data || ("advocate".data).isPrefixOf text.data then
            d2
          else
            let name := pyStrip (dropNumbering text)
            if name ≠ "" ∧ name ≠ "Vs" ∧ name ≠ "vs" ∧ name ≠ "V/s" then
              d2 ++ [{ name := name, advocate := none }]
            else d2)
        d)
    []

/-- Acts extraction (lines 639-651): skip the header row, keep rows with at
least two cells whose act or sections text is nonempty. -/
def actsOf (t : Table) : List ActEntry :=
  (t.rows.drop 1).foldl
    (fun d cells =>
      if 2 ≤ cells.length then
        let act := cells.getD 0 ""
        let sections := cells.getD 1 ""
        if act ≠ "" ∨ sections ≠ "" then d ++ [{ act := act, sections := sections }] else d
      else d)
    []

/-- Subordinate-court extraction (lines 654-665): rows with at least two cells
give key ↦ value, a four-cell row joining cells 1 and 3 with a space. -/
def lowerCourtOf (t : Table) : List (String × String) :=
  t.rows.foldl
    (fun d cells =>
      if 2 ≤ cells.length then
        let k := cells.getD 0 ""
        let v :=
          if cells.length = 4 then cells.getD 1 "" ++ " " ++ cells.getD 3 ""
          else cells.getD 1 ""
        if k ≠ "" ∧ v ≠ "" then pyDictInsert d k v else d
      else d)
    []

/-- Hearing extraction (lines 668-693): skip the header row; rows with at
least four cells give a hearing, carrying the cell-1 anchor's onclick when it
is a nonempty string, and are kept when a business date or hearing date is
present. -/
def hearingsOf (rows : List HistoryRow) : List Hearing :=
  (rows.drop 1).foldl
    (fun d r =>
      if 4 ≤ r.cells.length then
        let h : Hearing :=
          { judge := r.cells.getD 0 ""
            business_on_date := r.cells.getD 1 ""
            hearing_date := r.cells.getD 2 ""
            purpose := r.cells.getD 3 ""
            business_on_date_link :=
              match r.business_onclick with
              | some s => if s ≠ "" then some s else none
              | none => none }
        if h.business_on_date ≠ "" ∨ h.hearing_date ≠ "" then d ++ [h] else d
      else d)
    []

/-- Order extraction (lines 696-713): skip the header row; rows with at least
three cells give an order dict, with the pdf_link key added when the cell-2
anchor carries a truthy onclick. -/
def ordersOf (rows : List OrderRow) : List App.Order :=
  (rows.drop 1).foldl
    (fun d r =>
      if 3 ≤ r.cells.length then
        d ++ [{ order_number := some (r.cells.getD 0 "")
                order_date := some (r.cells.getD 1 "")
                details := some (r.cells.getD 2 "")
                pdf_link :=
                  match r.pdf_onclick with
                  | some s => if s ≠ "" then some s else none
                  | none => none : App.Order }]
      else d)
    []

/-- parse_case_history (district_court_scraper.py lines 533-721): each marker
found fills its sub-structure from its own table only; a missing marker leaves
that sub-structure empty and the rest of the parse untouched. -/
def parse_case_history (doc : DcHtml) : DcCaseData :=
  { case_details := match doc.case_details_table with
      | some t => kvTable t
      | none => []
    case_status := match doc.case_status_table with
      | some t => kvTable t
      | none => []
    petitioners := match doc.petitioner_table with
      | some t => petitionersOf t
      | none => []
    respondents := match doc.respondent_table with
      | some t => respondentsOf t
      | none => []
    acts := match doc.acts_table with
      | some t => actsOf t
      | none => []
    subordinate_court := match doc.lower_court_table with
      | some t => lowerCourtOf t
      | none => []
    hearings := match doc.history_table with
      | some rows => hearingsOf rows
      | none => []
    orders := match doc.order_table with
      | some rows => ordersOf rows
      | none => [] }

end DistrictCourt

namespace DistrictCourt

/-- First index at which `needle` occurs in `hay`, modelling a literal regex
search. -/
def findSub (needle : List Char) : List Char → Option Nat
  | [] => if needle.isEmpty then some 0 else none
  | c :: t => if needle.isPrefixOf (c :: t) then some 0 else (findSub needle t).map (· + 1)

/-- The capture of re.search over viewHistory followed by an opening
parenthesis with a lazy group up to the next closing parenthesis (line 433):
the characters between the first such opening parenthesis and the first
closing parenthesis after it, none when no match exists. -/
def extractVH (onclick : String) : Option String :=
  match findSub ("viewHistory(".data) onclick.data with
  | none => none
  | some i =>
      let rest := onclick.data.drop (i + 12)
      if rest.any (· = ')') then some ⟨rest.takeWhile (· ≠ ')')⟩ else none

/-- The findall of quoted-string-or-digit-run alternatives over the captured
parameter text (lines 442-443), already collapsed through the followup list
comprehension picking whichever group matched: scan left to right, a quote
opens a capture up to its closing quote, a digit starts a maximal digit run,
anything else is skipped.  The fuel argument (one unit per character) only
serves structural termination; scanParams supplies enough of it. -/
def scanParamsAux : Nat → List Char → List String
  | 0, _ => []
  | _, [] => []
  | fuel + 1, c :: rest =>
      if c = '\'' then
        if rest.any (· = '\'') then
          let q := rest.takeWhile (· ≠ '\'')
          ⟨q⟩ :: scanParamsAux fuel (rest.drop (q.length + 1))
        else scanParamsAux fuel rest
      else if c.isDigit then
        let ds := rest.takeWhile Char.isDigit
        ⟨c :: ds⟩ :: scanParamsAux fuel (rest.drop ds.length)
      else scanParamsAux fuel rest

/-- The parameter scan at full fuel. -/
def scanParams (cs : List Char) : List String := scanParamsAux cs.length cs

/-- The full locator extraction: capture the viewHistory argument text, then
split it into parameters. -/
def viewHistoryParams (onclick : String) : Option (List String) :=
  (extractVH onclick).map (fun s => scanParams s.data)

/-- The slice of the first-step response's case_data HTML that get_case_history
inspects: the onclick of the first viewHistory anchor when one exists, and the
text of the first td (used by the basic fallback). -/
structure DcFirstHtml where
  viewHistory_onclick : Option String := none
  first_td : Option String := none
  deriving DecidableEq

/-- The submitCaseNo JSON response as search_case reads it. -/
structure DcSearchResp where
  status : String
  case_data : Option DcFirstHtml := none
  deriving DecidableEq

/-- The viewHistory JSON response as get_case_history reads it. -/
structure VhResp where
  status : String
  data_list : Option DcHtml := none
  deriving DecidableEq

/-- Environment of the viewHistory POST: it may raise (caught only by
get_case_history's outer except, which returns None), return a non-200 status,
or return a parsed body. -/
inductive VhOutcome
  | exception : VhOutcome
  | httpError : VhOutcome
  | ok (resp : VhResp) : VhOutcome
  deriving DecidableEq

/-- parse_basic_case_data (lines 507-531): the fallback record carrying at most
the text of the first td as the case number. -/
structure BasicCaseData where
  case_number : Option String
  deriving DecidableEq

/-- What search_case hands back to its caller on the non-None paths. -/
inductive DcSearchReturn
  | history (d : DcCaseData) : DcSearchReturn
  | rawOnly : DcSearchReturn
  | basic (b : BasicCaseData) : DcSearchReturn
  deriving DecidableEq

/-- parse_basic_case_data as a function of the first-step HTML. -/
def parse_basic_case_data (html : DcFirstHtml) : BasicCaseData :=
  { case_number := html.first_td }

/-- get_case_history (district_court_scraper.py lines 410-505).  The Bool of
the result records whether the viewHistory POST was performed: it is reached
only after a viewHistory anchor was found and at least nine parameters were
extracted from its onclick; every earlier exit falls back to the basic parse
(or None when the response carried no case_data at all) without any second
call. -/
def get_case_history (vh : VhOutcome) (search_result : DcSearchResp) :
    Option DcSearchReturn × Bool :=
  match search_result.case_data with
  | none => (none, false)
  | some html =>
      match html.viewHistory_onclick with
      | none => (some (.basic (parse_basic_case_data html)), false)
      | some oc =>
          match viewHistoryParams oc with
          | none => (some (.basic (parse_basic_case_data html)), false)
          | some ps =>
              if ps.length < 9 then (some (.basic (parse_basic_case_data html)), false)
              else
                match vh with
                | .exception => (none, true)
                | .httpError => (some (.basic (parse_basic_case_data html)), true)
                | .ok resp =>
                    if resp.status = "1" then
                      match resp.data_list with
                      | some d => (some (.history (parse_case_history d)), true)
                      | none => (some .rawOnly, true)
                    else (some (.basic (parse_basic_case_data html)), true)

/-- Environment of the submitCaseNo POST of search_case. -/
inductive DcFirstOutcome
  | exception : DcFirstOutcome
  | httpError : DcFirstOutcome
  | ok (resp : DcSearchResp) : DcFirstOutcome
  deriving DecidableEq

/-- search_case (district_court_scraper.py lines 336-408): a first response
with status 1 is always routed through get_case_history rather than returned;
every failure path — wrong captcha or no record (remote status other than 1),
non-200, transport exception — returns the single value None, paired here with
the made-no-second-call flag. -/
def search_case (fst : DcFirstOutcome) (vh : VhOutcome) : Option DcSearchReturn × Bool :=
  match fst with
  | .exception => (none, false)
  | .httpError => (none, false)
  | .ok r => if r.status = "1" then get_case_history vh r else (none, false)

/-- Whether the first-step response carries an extractable viewHistory locator
(anchor present, argument list captured, at least nine parameters). -/
def canExtractLocator (r : DcSearchResp) : Bool :=
  match r.case_data with
  | none => false
  | some html =>
      match html.viewHistory_onclick with
      | none => false
      | some oc =>
          match viewHistoryParams oc with
          | none => false
          | some ps => decide (9 ≤ ps.length)

end DistrictCourt

namespace CauseList

/-- The regex pattern of a bare serial marker: one or more digits, a dot or
closing parenthesis, then only whitespace to the end of the line. -/
def matchSerialBlank (s : String) : Bool :=
  let ds := s.data.takeWhile Char.isDigit
  !ds.isEmpty &&
    match s.data.drop ds.length with
    | p :: rest => (p = '.' || p = ')') && rest.all pyIsSpace
    | [] => false

/-- The regex pattern of a serial heading: digits, a dot or closing
parenthesis, at least one whitespace, then at least one capital letter. -/
def matchSerialHeading (s : String) : Bool :=
  let ds := s.data.takeWhile Char.isDigit
  !ds.isEmpty &&
    match s.data.drop ds.length with
    | p :: rest =>
        (p = '.' || p = ')') &&
          (let sp := rest.takeWhile pyIsSpace
           !sp.isEmpty &&
             match rest.drop sp.length with
             | u :: _ => 'A' ≤ u && u ≤ 'Z'
             | [] => false)
    | [] => false

/-- The break test of the backward scan (causelist_scraper.py lines 299-307),
evaluated at a candidate start position cs > 0 against the stripped previous
line: a bare serial marker, a serial-table header word, the blank-line-pair
boundary, or a serial heading stops the scan. -/
def backBreak (lines : List String) (cs : Nat) : Bool :=
  let prev := pyStrip (lines.getD (cs - 1) "")
  matchSerialBlank prev || startsWithCI "Sr." prev || startsWithCI "S.No" prev ||
    startsWithCI "Serial" prev ||
    (prev = "" && decide (1 < cs) && pyStrip (lines.getD (cs - 2) "") = "") ||
    matchSerialHeading prev

/-- The backward scan `while case_start > 0` of lines 298-307: starting from
the matched line index, walk toward the beginning until the break test fires
or index 0 is reached. -/
def backScan (lines : List String) : Nat → Nat
  | 0 => 0
  | cs + 1 => if backBreak lines (cs + 1) then cs + 1 else backScan lines cs

/-- Forward-scan stop: the next case heading (digits, dot or parenthesis,
optional spaces, a capital). -/
def matchNextCase (s : String) : Bool :=
  let ds := s.data.takeWhile Char.isDigit
  !ds.isEmpty &&
    match s.data.drop ds.length with
    | p :: rest =>
        (p = '.' || p = ')') &&
          (match rest.dropWhile pyIsSpace with
           | u :: _ => 'A' ≤ u && u ≤ 'Z'
           | [] => false)
    | [] => false

/-- Forward-scan stop: a bare number, with the dot or parenthesis optional. -/
def matchBareNumber (s : String) : Bool :=
  let ds := s.data.takeWhile Char.isDigit
  !ds.isEmpty &&
    (let rest := s.data.drop ds.length
     let rest1 := match rest with
       | p :: r => if p = '.' || p = ')' then r else rest
       | [] => []
     rest1.all pyIsSpace)

/-- The section-header keywords of line 332, each matched case-insensitively
at the start of the line. -/
def sectionHeaders : List String :=
  ["ORDERS", "ADMISSION", "MOTION", "FINAL", "REGULAR", "PRELIMINARY",
   "MISCELLANEOUS", "Sr.", "S.No", "Serial", "Item"]

/-- Forward-scan stop: a known section header starts the line. -/
def isSectionHeader (s : String) : Bool :=
  sectionHeaders.any (fun h => startsWithCI h s)

/-- Forward-scan stop: a page-footer token (digits, slash, digits, optional
trailing whitespace and nothing else). -/
def isPageFooter (s : String) : Bool :=
  let ds := s.data.takeWhile Char.isDigit
  !ds.isEmpty &&
    match s.data.drop ds.length with
    | '/' :: rest =>
        (let ds2 := rest.takeWhile Char.isDigit
         !ds2.isEmpty && (rest.drop ds2.length).all pyIsSpace)
    | _ => false

/-- The forward scan `while case_end < len(lines)` of lines 310-339, with an
explicit fuel argument (one unit per remaining line) for structural
termination: stop before the next case heading, a bare serial number, the
second consecutive blank line, a section header, or a page footer; otherwise
advance. -/
def fwdScanAux (lines : List String) : Nat → Nat → Nat → Nat
  | 0, _, ce => ce
  | fuel + 1, emptyCnt, ce =>
      if ce < lines.length then
        let next := pyStrip (lines.getD ce "")
        if matchNextCase next then ce
        else if matchBareNumber next then ce
        else if next = "" then
          if 2 ≤ emptyCnt + 1 then ce
          else if isSectionHeader next then ce
          else if isPageFooter next then ce
          else fwdScanAux lines fuel (emptyCnt + 1) (ce + 1)
        else if isSectionHeader next then ce
        else if isPageFooter next then ce
        else fwdScanAux lines fuel 0 (ce + 1)
      else ce

/-- The forward scan at full fuel. -/
def fwdScan (lines : List String) (emptyCnt ce : Nat) : Nat :=
  fwdScanAux lines (lines.length - ce) emptyCnt ce

/-- The regex class kept by the case-number cleaning re.sub: word characters. -/
def wordChar (c : Char) : Bool := c.isAlphanum || c = '_'

/-- Case-number normalization of lines 291-292: drop non-word characters and
uppercase the rest. -/
def cleanUpper (s : String) : String := ⟨(s.data.filter wordChar).map Char.toUpper⟩

/-- The per-line match test of lines 285-294: case-insensitive containment for
party names; for case numbers, containment of the cleaned term in the cleaned
line or plain uppercase containment. -/
def lineMatches (search_term : String) (is_party_name : Bool) (line : String) : Bool :=
  if is_party_name then pyIn (pyLower search_term) (pyLower line)
  else pyIn (cleanUpper search_term) (cleanUpper line) || pyIn (pyUpper search_term) (pyUpper line)

/-- One match record appended at lines 343-349 (1-based line numbers; end_line
is the 1-based number of the last captured line). -/
structure TextMatch where
  line_number : Nat
  matched_line : String
  full_case_entry : String
  start_line : Nat
  end_line : Nat
  deriving DecidableEq

/-- Python newline join for the captured entry. -/
def joinNl : List String → String
  | [] => ""
  | [s] => s
  | s :: rest => s ++ "\n" ++ joinNl rest

/-- The main scan loop of search_case_in_text (lines 280-353), fuel-structural
(one unit per remaining line): at a matching line, capture the span found by
the backward and forward scans and resume after it; otherwise move on. -/
def searchLoopAux (term : String) (isP : Bool) (lines : List String) :
    Nat → Nat → List TextMatch
  | 0, _ => []
  | fuel + 1, i =>
      if i < lines.length then
        let line := lines.getD i ""
        if lineMatches term isP line then
          let cs := backScan lines i
          let ce := fwdScan lines 0 (i + 1)
          { line_number := i + 1
            matched_line := pyStrip line
            full_case_entry := pyStrip (joinNl ((lines.drop cs).take (ce - cs)))
            start_line := cs + 1
            end_line := ce } :: searchLoopAux term isP lines fuel ce
        else searchLoopAux term isP lines fuel (i + 1)
      else []

/-- search_case_in_text (causelist_scraper.py lines 270-356): split the
extracted PDF text into lines and run the scan loop from the top. -/
def search_case_in_text (search_term : String) (text : String) (is_party_name : Bool) :
    List TextMatch :=
  let lines := pySplit (Char.ofNat 10) text
  searchLoopAux search_term is_party_name lines lines.length 0

end CauseList

/-- C7: for every OCR environment and every input byte string,
detect_captcha_text is a total function (no exception escapes its boundary),
every internal failure — EasyOCR unavailable or any exception inside the body,
including unreadable images and preprocessing errors — yields the empty
string, and every character of any returned string is a lowercase letter a-z
or a digit 0-9. -/
theorem detect_captcha_text_safe (ocr : List Nat → CaptchaOcr.OcrOutcome)
    (image_bytes : List Nat) :
    ((ocr image_bytes = .readerUnavailable ∨ ocr image_bytes = .exceptionRaised) →
      CaptchaOcr.detect_captcha_text ocr image_bytes = "") ∧
    (∀ c ∈ (CaptchaOcr.detect_captcha_text ocr image_bytes).data,
      ('a' ≤ c ∧ c ≤ 'z') ∨ ('0' ≤ c ∧ c ≤ '9')) := by
  constructor
  · rintro (h | h) <;> simp [CaptchaOcr.detect_captcha_text, h]
  · intro c hc
    unfold CaptchaOcr.detect_captcha_text at hc
    cases hoc : ocr image_bytes <;> rw [hoc] at hc
    · simp at hc
    · simp at hc
    · unfold CaptchaOcr.clean_captcha_text at hc
      have h2 : CaptchaOcr.isLowerAlnum c = true := (List.mem_filter.mp hc).2
      simpa [CaptchaOcr.isLowerAlnum, decide_eq_true_eq] using h2

/-- Witness for C7: a concrete failing environment returns the empty string,
and a concrete successful fragment list yields only lowercase alphanumerics. -/
theorem detect_captcha_text_safe_witness :
    CaptchaOcr.detect_captcha_text (fun _ => .exceptionRaised) [0, 1] = "" ∧
    (('a' ≤ 'b' ∧ 'b' ≤ 'z') ∨ ('0' ≤ 'b' ∧ 'b' ≤ '9')) := by
  constructor
  · exact (detect_captcha_text_safe (fun _ => .exceptionRaised) [0, 1]).1 (Or.inr rfl)
  · exact (detect_captcha_text_safe (fun _ => .fragments ["xB2"]) []).2 'b' (by decide)

/-- C5: for every court complex code of the composite form code@estCodes@flag
with flag N or 0, the establishment step is bypassed: fetch_establishments
returns the sentinel no-establishment mapping carrying the embedded codes
without performing the establishment fetch, and fetch_judges settles on
exactly those embedded codes for its judge-fetch request; with flag Y, or with
the flag component absent, the establishment fetch is performed. -/
theorem establishment_flag_bypass
    (env envY env2 : DistrictCauseList.EstFetchEnv)
    (code codeY code2 : String) (c0 cs f c0' cs' d0 : String)
    (hsplit : pySplit (Char.ofNat 64) code = [c0, cs, f])
    (hf : f = "N" ∨ f = "0")
    (hsplitY : pySplit (Char.ofNat 64) codeY = [c0', cs', "Y"])
    (hsplit2 : pySplit (Char.ofNat 64) code2 = [d0]) :
    DistrictCauseList.fetch_establishments env code =
      .noFetch [("__no_establishment__", cs)] ∧
    DistrictCauseList.fetch_judges_est_code code none = cs ∧
    DistrictCauseList.fetch_judges_est_code code (some "__no_establishment__") = cs ∧
    (DistrictCauseList.fetch_judges_request code (some "__no_establishment__")).est_code = cs ∧
    (∃ m, DistrictCauseList.fetch_establishments envY codeY = .fetched m) ∧
    (∃ m, DistrictCauseList.fetch_establishments env2 code2 = .fetched m) := by
  refine ⟨?_, ?_, ?_, ?_, ?_, ?_⟩
  · unfold DistrictCauseList.fetch_establishments
    rw [hsplit]
    rcases hf with hf | hf <;> subst hf <;> simp [List.getD]
  · unfold DistrictCauseList.fetch_judges_est_code
    rw [hsplit]
    simp [List.getD]
  · unfold DistrictCauseList.fetch_judges_est_code
    rw [hsplit]
    simp [List.getD]
  · unfold DistrictCauseList.fetch_judges_request DistrictCauseList.fetch_judges_est_code
    rw [hsplit]
    simp [List.getD]
  · unfold DistrictCauseList.fetch_establishments
    rw [hsplitY]
    cases envY with
    | none => exact ⟨[], by simp [List.getD]⟩
    | some opts => exact ⟨DistrictCauseList.extractOptions opts, by simp [List.getD]⟩
  · unfold DistrictCauseList.fetch_establishments
    rw [hsplit2]
    cases env2 with
    | none => exact ⟨[], by simp [List.getD]⟩
    | some opts => exact ⟨DistrictCauseList.extractOptions opts, by simp [List.getD]⟩

/-- Witness for C5 at the concrete codes 1@22,33@N (bypassed), 1@22@Y
(fetched) and 77 (no flag component, fetched). -/
theorem establishment_flag_bypass_witness :
    DistrictCauseList.fetch_establishments none "1@22,33@N" =
      .noFetch [("__no_establishment__", "22,33")] ∧
    DistrictCauseList.fetch_judges_est_code "1@22,33@N" none = "22,33" ∧
    DistrictCauseList.fetch_judges_est_code "1@22,33@N" (some "__no_establishment__") = "22,33" ∧
    (DistrictCauseList.fetch_judges_request "1@22,33@N"
      (some "__no_establishment__")).est_code = "22,33" ∧
    (∃ m, DistrictCauseList.fetch_establishments none "1@22@Y" = .fetched m) ∧
    (∃ m, DistrictCauseList.fetch_establishments none "77" = .fetched m) :=
  establishment_flag_bypass none none none "1@22,33@N" "1@22@Y" "77"
    "1" "22,33" "N" "1" "22" "77" (by decide) (Or.inl rfl) (by decide) (by decide)

/-- Counterexample to C3 as stated: the bytes BOM ++ %PDF-1.4 (padded with
spaces to 1002 bytes) start with %PDF after BOM-stripping, so the claim
classifies them valid, yet the district downloader's signature check rejects
them (it never strips the BOM, so the JSON-fallback path ends in the
not-a-PDF return); and the unpadded 7-byte prefix %PDF after a BOM is
rejected by the proxy endpoint's 1000-byte minimum before any signature
check, not served as a valid PDF. -/
theorem pdf_validation_counterexample :
    PdfValidation.pdfMagic.isPrefixOf
      (PdfValidation.stripBom
        (PdfValidation.bomBytes ++ PdfValidation.pdfMagic ++
          [0x2D, 0x31, 0x2E, 0x34] ++ List.replicate 990 0x20)) = true ∧
    PdfValidation.districtIsPdf
      (PdfValidation.bomBytes ++ PdfValidation.pdfMagic ++
        [0x2D, 0x31, 0x2E, 0x34] ++ List.replicate 990 0x20) = false ∧
    PdfValidation.proxy_pdf_classify (PdfValidation.bomBytes ++ PdfValidation.pdfMagic) =
      .errTooSmall := by
  refine ⟨?_, by decide, by decide⟩
  decide

/-- C3 amended: the proxy endpoint serves bytes b as a valid PDF exactly when
b is at least 1000 bytes long and starts with %PDF after stripping an optional
leading UTF-8 BOM; the district downloader's signature check tests %PDF at the
very first byte without BOM stripping, so BOM-prefixed bytes never pass it. -/
theorem pdf_validation_amended (b rest : List Nat) :
    (PdfValidation.proxy_pdf_classify b = .servePdf (PdfValidation.stripBom b) ↔
      1000 ≤ b.length ∧
        PdfValidation.pdfMagic.isPrefixOf (PdfValidation.stripBom b) = true) ∧
    PdfValidation.districtIsPdf b = PdfValidation.pdfMagic.isPrefixOf b ∧
    PdfValidation.districtIsPdf (PdfValidation.bomBytes ++ rest) = false := by
  refine ⟨?_, rfl, ?_⟩
  · unfold PdfValidation.proxy_pdf_classify
    by_cases hlen : b.length < 1000
    · rw [if_pos hlen]
      constructor
      · intro h
        exact absurd h (by simp)
      · intro h
        omega
    · rw [if_neg hlen]
      by_cases hpre : PdfValidation.pdfMagic.isPrefixOf (PdfValidation.stripBom b) = true
      · rw [if_pos hpre]
        exact ⟨fun _ => ⟨by omega, hpre⟩, fun _ => rfl⟩
      · rw [if_neg hpre]
        constructor
        · intro h
          exact absurd h (by simp)
        · intro h
          exact absurd h.2 hpre
  · simp [PdfValidation.districtIsPdf, PdfValidation.bomBytes, PdfValidation.pdfMagic,
      List.isPrefixOf]

/-- Counterexample to C1 as stated: in the High Court cause-list variant a
session key left in the registry by a completed first verify call is still
accepted by a second call with the same key, which completes instead of
failing with InvalidSession. -/
theorem causelist_session_not_single_use :
    (App.verify_causelist_captcha ({"k"} : Finset String) "k" true).1 =
      App.VerifyOutcome.completed true ∧
    (App.verify_causelist_captcha
      (App.verify_causelist_captcha ({"k"} : Finset String) "k" true).2 "k" true).1 =
      App.VerifyOutcome.completed true := by
  constructor <;> decide

/-- C1 amended: for every session key stored in the registry, the High Court
case-search, District Court case-search, and District cause-list verify
endpoints remove the entry after one completed verify attempt, so a second
call with the same key yields the InvalidSession failure; the High Court
cause-list verify endpoint instead retains the entry (for later PDF
downloads), so its second call completes again rather than failing. -/
theorem verify_single_use_amended (reg : App.SessionRegistry) (sid : String)
    (ok ok' : Bool) (hne : sid ≠ "") (hmem : sid ∈ reg) :
    (App.verify_high_court_captcha reg sid ok).1 = .completed ok ∧
    (App.verify_high_court_captcha
      (App.verify_high_court_captcha reg sid ok).2 sid ok').1 = .invalidSession ∧
    (App.verify_district_captcha
      (App.verify_district_captcha reg sid ok).2 sid ok').1 = .invalidSession ∧
    (App.verify_district_causelist_captcha
      (App.verify_district_causelist_captcha reg sid ok).2 sid ok').1 = .invalidSession ∧
    (App.verify_causelist_captcha
      (App.verify_causelist_captcha reg sid ok).2 sid ok').1 = .completed ok' := by
  have hk : App.sessionKnown reg sid = true := by
    unfold App.sessionKnown
    rw [if_neg hne]
    exact decide_eq_true hmem
  have hk2 : App.sessionKnown (reg.erase sid) sid = false := by
    unfold App.sessionKnown
    rw [if_neg hne]
    exact decide_eq_false (Finset.not_mem_erase _ _)
  refine ⟨?_, ?_, ?_, ?_, ?_⟩ <;>
    simp [App.verify_high_court_captcha, App.verify_district_captcha,
      App.verify_district_causelist_captcha, App.verify_causelist_captcha, hk, hk2]

/-- Witness for the amended C1 at the one-key registry. -/
theorem verify_single_use_amended_witness :
    (App.verify_high_court_captcha ({"k"} : Finset String) "k" true).1 = .completed true ∧
    (App.verify_high_court_captcha
      (App.verify_high_court_captcha ({"k"} : Finset String) "k" true).2 "k" false).1 =
      .invalidSession ∧
    (App.verify_district_captcha
      (App.verify_district_captcha ({"k"} : Finset String) "k" true).2 "k" false).1 =
      .invalidSession ∧
    (App.verify_district_causelist_captcha
      (App.verify_district_causelist_captcha ({"k"} : Finset String) "k" true).2 "k" false).1 =
      .invalidSession ∧
    (App.verify_causelist_captcha
      (App.verify_causelist_captcha ({"k"} : Finset String) "k" true).2 "k" false).1 =
      .completed false :=
  verify_single_use_amended {"k"} "k" true false (by decide) (by decide)

/-- Key membership after one cache deletion. -/
theorem mem_cacheKeys_cacheDelete (cache : App.PdfCache) (a k : String) :
    k ∈ App.cacheKeys (App.cacheDelete cache a) ↔ k ∈ App.cacheKeys cache ∧ k ≠ a := by
  unfold App.cacheKeys App.cacheDelete
  simp only [List.mem_map, List.mem_filter, Bool.not_eq_true']
  constructor
  · rintro ⟨e, ⟨he, hne⟩, rfl⟩
    exact ⟨⟨e, he, rfl⟩, by simpa using hne⟩
  · rintro ⟨⟨e, he, rfl⟩, hne⟩
    exact ⟨e, ⟨he, by simpa using hne⟩, rfl⟩

/-- Key membership after deleting every id of a list from the cache. -/
theorem mem_cacheKeys_foldl_cacheDelete (ids : List String) :
    ∀ (cache : App.PdfCache) (k : String),
      k ∈ App.cacheKeys (ids.foldl App.cacheDelete cache) ↔
        k ∈ App.cacheKeys cache ∧ k ∉ ids := by
  induction ids with
  | nil =>
      intro cache k
      simp
  | cons a t ih =>
      intro cache k
      rw [List.foldl_cons, ih, mem_cacheKeys_cacheDelete]
      constructor
      · rintro ⟨⟨hc, hka⟩, ht⟩
        exact ⟨hc, by simp [hka, ht]⟩
      · rintro ⟨hc, hn⟩
        simp only [List.mem_cons, not_or] at hn
        exact ⟨⟨hc, hn.1⟩, hn.2⟩

/-- Counterexample to C2 as stated: with the live epoch A = [k] and the new
search's keys B = [k] (overlapping sets), registering the new epoch deletes k
from the cache, so a key of B is missing afterwards even though the claim
requires the cache to contain exactly B's keys. -/
theorem register_epoch_counterexample :
    App.extract_pdf_ids ⟨some [{ pdf_id := some "k" }]⟩ = ["k"] ∧
    App.cacheKeys (App.register_search_session
      ⟨[("k", ⟨[], "f", 0⟩)], ⟨some "old", ["k"], some 0⟩⟩
      ⟨some [{ pdf_id := some "k" }]⟩ "new" 1).pdf_cache = [] := by
  constructor <;> rfl

/-- C2 amended: when the live epoch's key set A and the newly registered
search's key set B are disjoint and the cache holds exactly the keys A ++ B
(the state the flow produces, since new keys are freshly derived), registering
the new epoch leaves the cache containing exactly B's keys and records B as
the live set.  Keys in A ∩ B would be evicted, so disjointness is necessary. -/
theorem register_epoch_amended (st : App.AppState) (cd : App.CaseData)
    (sid : String) (now : Nat)
    (hdisj : ∀ k ∈ st.current_search_session.pdf_ids, k ∉ App.extract_pdf_ids cd)
    (hcov : App.cacheKeys st.pdf_cache =
      st.current_search_session.pdf_ids ++ App.extract_pdf_ids cd) :
    (∀ k, k ∈ App.cacheKeys (App.register_search_session st cd sid now).pdf_cache ↔
      k ∈ App.extract_pdf_ids cd) ∧
    (App.register_search_session st cd sid now).current_search_session.pdf_ids =
      App.extract_pdf_ids cd := by
  constructor
  · intro k
    show k ∈ App.cacheKeys
      (st.current_search_session.pdf_ids.foldl App.cacheDelete st.pdf_cache) ↔ _
    rw [mem_cacheKeys_foldl_cacheDelete, hcov]
    simp only [List.mem_append]
    constructor
    · rintro ⟨h1 | h1, h2⟩
      · exact absurd h1 h2
      · exact h1
    · intro hB
      exact ⟨Or.inr hB, fun hA => hdisj k hA hB⟩
  · rfl

/-- Witness for the amended C2: live epoch [a], new keys [b], cache holding
exactly both; after registering, the cache holds exactly b. -/
theorem register_epoch_amended_witness :
    ("b" ∈ App.cacheKeys (App.register_search_session
        ⟨[("a", ⟨[], "f", 0⟩), ("b", ⟨[], "g", 1⟩)], ⟨some "old", ["a"], some 0⟩⟩
        ⟨some [{ pdf_id := some "b" }]⟩ "new" 2).pdf_cache ↔
      "b" ∈ App.extract_pdf_ids ⟨some [{ pdf_id := some "b" }]⟩) ∧
    (App.register_search_session
        ⟨[("a", ⟨[], "f", 0⟩), ("b", ⟨[], "g", 1⟩)], ⟨some "old", ["a"], some 0⟩⟩
        ⟨some [{ pdf_id := some "b" }]⟩ "new" 2).current_search_session.pdf_ids =
      App.extract_pdf_ids ⟨some [{ pdf_id := some "b" }]⟩ :=
  ⟨(register_epoch_amended
      ⟨[("a", ⟨[], "f", 0⟩), ("b", ⟨[], "g", 1⟩)], ⟨some "old", ["a"], some 0⟩⟩
      ⟨some [{ pdf_id := some "b" }]⟩ "new" 2 (by decide) (by decide)).1 "b",
    (register_epoch_amended
      ⟨[("a", ⟨[], "f", 0⟩), ("b", ⟨[], "g", 1⟩)], ⟨some "old", ["a"], some 0⟩⟩
      ⟨some [{ pdf_id := some "b" }]⟩ "new" 2 (by decide) (by decide)).2⟩

/-- Counterexample to C4 as stated: a wrong-CAPTCHA rejection (High Court:
nonempty Error field; District: remote status other than 1) and a transport
error produce the identical return value None in both portal clients — there
is no discriminated InvalidCaptcha / NoRecord / RemoteError value anywhere in
the result. -/
theorem search_failure_undifferentiated_counterexample :
    HighCourt.search_case (.http 200 (some ⟨some "Invalid Captcha", 7⟩)) = none ∧
    HighCourt.search_case .transportError = none ∧
    HighCourt.search_case (.http 200 (some ⟨some "Invalid Captcha", 7⟩)) =
      HighCourt.search_case .transportError ∧
    (DistrictCourt.search_case (.ok ⟨"0", none⟩) .exception).1 = none ∧
    (DistrictCourt.search_case .exception .exception).1 = none ∧
    (DistrictCourt.search_case (.ok ⟨"0", none⟩) .exception).1 =
      (DistrictCourt.search_case .exception .exception).1 :=
  ⟨rfl, rfl, rfl, rfl, rfl, rfl⟩

/-- C4 amended: every failed verify-and-search call — wrong CAPTCHA, no
matching record, remote error text, JSON decode failure, non-200 status, or
transport error — returns the single undifferentiated failure value None in
both the High Court and the District Court portal clients; the failure cause
is only logged, never returned. -/
theorem search_failure_undifferentiated_amended
    (st : Nat) (body : Option HighCourt.HcJson) (j : HighCourt.HcJson)
    (vh : DistrictCourt.VhOutcome) (r : DistrictCourt.DcSearchResp)
    (hst : st ≠ 200) (herr : j.errorField ≠ some "") (hr : r.status ≠ "1") :
    HighCourt.search_case .transportError = none ∧
    HighCourt.search_case (.http st body) = none ∧
    HighCourt.search_case (.http 200 none) = none ∧
    HighCourt.search_case (.http 200 (some j)) = none ∧
    (DistrictCourt.search_case .exception vh).1 = none ∧
    (DistrictCourt.search_case .httpError vh).1 = none ∧
    (DistrictCourt.search_case (.ok r) vh).1 = none := by
  refine ⟨rfl, ?_, rfl, ?_, rfl, rfl, ?_⟩
  · simp [HighCourt.search_case, hst]
  · simp [HighCourt.search_case, herr]
  · simp [DistrictCourt.search_case, hr]

/-- Witness for the amended C4 at concrete failing responses. -/
theorem search_failure_undifferentiated_amended_witness :
    HighCourt.search_case .transportError = none ∧
    HighCourt.search_case (.http 500 none) = none ∧
    HighCourt.search_case (.http 200 none) = none ∧
    HighCourt.search_case (.http 200 (some ⟨some "No record found", 3⟩)) = none ∧
    (DistrictCourt.search_case .exception .exception).1 = none ∧
    (DistrictCourt.search_case .httpError .exception).1 = none ∧
    (DistrictCourt.search_case (.ok ⟨"0", none⟩) .exception).1 = none :=
  search_failure_undifferentiated_amended 500 none ⟨some "No record found", 3⟩
    .exception ⟨"0", none⟩ (by decide) (by decide) (by decide)

/-- Counterexample to C6 as stated: a successful first-step response
(status 1) whose case_data HTML contains no viewHistory anchor makes
search_case return the basic-parse fallback without ever performing the
second viewHistory call (the made-call flag of the model is false). -/
theorem district_two_step_counterexample :
    DistrictCourt.search_case (.ok ⟨"1", some ⟨none, some "X"⟩⟩) .exception =
      (some (.basic ⟨some "X"⟩), false) :=
  rfl

/-- C6 amended: a successful first-step response (status 1) is never returned
directly — search_case always routes it through get_case_history — and the
second viewHistory call is performed exactly when a viewHistory locator can be
extracted from the first response (anchor present with at least nine onclick
parameters); when it cannot, the basic-parse fallback is returned without the
second call. -/
theorem district_two_step_amended (vh : DistrictCourt.VhOutcome)
    (r : DistrictCourt.DcSearchResp) (hst : r.status = "1") :
    DistrictCourt.search_case (.ok r) vh = DistrictCourt.get_case_history vh r ∧
    (DistrictCourt.get_case_history vh r).2 = DistrictCourt.canExtractLocator r := by
  constructor
  · simp [DistrictCourt.search_case, hst]
  · unfold DistrictCourt.get_case_history DistrictCourt.canExtractLocator
    cases hcd : r.case_data with
    | none => rfl
    | some html =>
        dsimp only
        cases hoc : html.viewHistory_onclick with
        | none => rfl
        | some oc =>
            dsimp only
            cases hps : DistrictCourt.viewHistoryParams oc with
            | none => rfl
            | some ps =>
                dsimp only
                by_cases hlen : ps.length < 9
                · rw [if_pos hlen, decide_eq_false (by omega)]
                · rw [if_neg hlen, decide_eq_true (by omega)]
                  cases vh with
                  | exception => rfl
                  | httpError => rfl
                  | ok resp =>
                      dsimp only
                      by_cases hs : resp.status = "1"
                      · rw [if_pos hs]
                        cases resp.data_list <;> rfl
                      · rw [if_neg hs]

/-- Witness for the amended C6 at a concrete extractable locator. -/
theorem district_two_step_amended_witness :
    DistrictCourt.search_case
        (.ok ⟨"1", some ⟨some "viewHistory(1,2,3,4,5,6,7,8,9)", none⟩⟩) .httpError =
      DistrictCourt.get_case_history .httpError
        ⟨"1", some ⟨some "viewHistory(1,2,3,4,5,6,7,8,9)", none⟩⟩ ∧
    (DistrictCourt.get_case_history .httpError
        ⟨"1", some ⟨some "viewHistory(1,2,3,4,5,6,7,8,9)", none⟩⟩).2 =
      DistrictCourt.canExtractLocator
        ⟨"1", some ⟨some "viewHistory(1,2,3,4,5,6,7,8,9)", none⟩⟩ :=
  district_two_step_amended .httpError
    ⟨"1", some ⟨some "viewHistory(1,2,3,4,5,6,7,8,9)", none⟩⟩ rfl

/-- The per-order transformation of download_all_orders never changes the
pdf_id field. -/
theorem download_all_orders_pdf_id (download : String → Option String)
    (sd : Option HighCourt.SaveDirArg) (cd : App.CaseData) :
    ((HighCourt.download_all_orders download cd sd).orders.getD []).map (fun o => o.pdf_id) =
      (cd.orders.getD []).map (fun o => o.pdf_id) := by
  unfold HighCourt.download_all_orders
  obtain ⟨orders⟩ := cd
  cases orders with
  | none => rfl
  | some os =>
      dsimp only [Option.getD_some]
      rw [List.map_map]
      apply List.map_congr_left
      intro o _
      show (match o.view_link with
        | some vl =>
            match HighCourt.download_order_pdf download vl sd with
            | some p => { o with local_pdf_path := some p }
            | none => o
        | none => o : App.Order).pdf_id = o.pdf_id
      cases o.view_link with
      | none => rfl
      | some vl =>
          dsimp only
          cases HighCourt.download_order_pdf download vl sd <;> rfl

/-- Every order the High Court parser builds lacks a pdf_id key. -/
theorem mem_hcOrdersOf_pdf_id (rows : List HighCourt.HcOrderRow) :
    ∀ o ∈ HighCourt.hcOrdersOf rows, o.pdf_id = none := by
  unfold HighCourt.hcOrdersOf
  generalize rows.drop 1 = l
  induction l with
  | nil => simp
  | cons r t ih =>
      simp only [List.foldr_cons]
      by_cases hc : 5 ≤ r.cells.length
      · rw [if_pos hc]
        intro o ho
        rcases List.mem_cons.mp ho with rfl | ho'
        · rfl
        · exact ih o ho'
      · rw [if_neg hc]
        exact ih

/-- A case record whose orders all lack pdf_id yields no extracted keys. -/
theorem extract_pdf_ids_eq_nil (cd : App.CaseData)
    (h : ∀ o ∈ cd.orders.getD [], o.pdf_id = none) : App.extract_pdf_ids cd = [] := by
  unfold App.extract_pdf_ids
  cases hcd : cd.orders with
  | none => rfl
  | some os =>
      rw [hcd] at h
      rw [List.filterMap_eq_nil_iff]
      simpa using h

/-- C10: the High Court download path only ever attaches local_pdf_path to an
order and never pdf_id; when app.py hands the in-memory pdf_cache dict to it
as the save_dir argument, os.path.join raises TypeError inside the guarded
body, so every per-order download returns None (no High Court order bytes are
ever written into the cache, whose dict the functions never touch); and
register_search_session on the resulting High Court case record therefore
always records an empty attachment-key set. -/
theorem hc_orders_never_cached (doc : HighCourt.HcHtml)
    (download : String → Option String) (cache : App.PdfCache)
    (sd : Option HighCourt.SaveDirArg) (cd : App.CaseData)
    (st : App.AppState) (sid : String) (now : Nat) (vl : String) :
    HighCourt.download_order_pdf download vl (some (.cacheDict cache)) = none ∧
    ((HighCourt.download_all_orders download cd sd).orders.getD []).map (fun o => o.pdf_id) =
      (cd.orders.getD []).map (fun o => o.pdf_id) ∧
    App.extract_pdf_ids
      (HighCourt.download_all_orders download
        (HighCourt.toAppCaseData (HighCourt.parse_case_history doc))
        (some (.cacheDict cache))) = [] ∧
    (App.register_search_session st
      (HighCourt.download_all_orders download
        (HighCourt.toAppCaseData (HighCourt.parse_case_history doc))
        (some (.cacheDict cache))) sid now).current_search_session.pdf_ids = [] := by
  have hids : ∀ o ∈ (HighCourt.toAppCaseData (HighCourt.parse_case_history doc)).orders.getD [],
      o.pdf_id = none := by
    unfold HighCourt.toAppCaseData HighCourt.parse_case_history
    by_cases hr : HighCourt.hcParseRaises doc = true
    · rw [if_pos hr]
      simp
    · rw [if_neg hr]
      dsimp only [Option.getD_some]
      cases hot : doc.order_table with
      | none => simp
      | some rows =>
          intro o ho
          exact mem_hcOrdersOf_pdf_id rows o ho
  have hext : App.extract_pdf_ids
      (HighCourt.download_all_orders download
        (HighCourt.toAppCaseData (HighCourt.parse_case_history doc))
        (some (.cacheDict cache))) = [] := by
    apply extract_pdf_ids_eq_nil
    intro o ho
    have hmap := download_all_orders_pdf_id download (some (.cacheDict cache))
      (HighCourt.toAppCaseData (HighCourt.parse_case_history doc))
    have : o.pdf_id ∈ ((HighCourt.download_all_orders download
        (HighCourt.toAppCaseData (HighCourt.parse_case_history doc))
        (some (.cacheDict cache))).orders.getD []).map (fun o => o.pdf_id) :=
      List.mem_map_of_mem _ ho
    rw [hmap] at this
    rcases List.mem_map.mp this with ⟨o', ho', heq⟩
    rw [← heq]
    exact hids o' ho'
  refine ⟨rfl, download_all_orders_pdf_id download sd cd, hext, ?_⟩
  show App.extract_pdf_ids _ = []
  exact hext

/-- C8: both parse_case_history implementations tolerate missing tables.  For
the District Court parser, knocking any one class marker out of the document
empties exactly its sub-structure and leaves every other extracted
sub-structure unchanged, and an absent marker always yields the empty
sub-structure; for the High Court parser (whose body does not raise, which a
missing table can never cause on its own), the result is still a filled
record — never the empty dict — with the absent markers' sub-structures
empty.  A missing table never fails the whole parse. -/
theorem parse_missing_tables_tolerated (doc : DistrictCourt.DcHtml)
    (doc2 : HighCourt.HcHtml) (hr : HighCourt.hcParseRaises doc2 = false) :
    (DistrictCourt.parse_case_history { doc with case_details_table := none } =
      { DistrictCourt.parse_case_history doc with case_details := [] }) ∧
    (DistrictCourt.parse_case_history { doc with case_status_table := none } =
      { DistrictCourt.parse_case_history doc with case_status := [] }) ∧
    (DistrictCourt.parse_case_history { doc with petitioner_table := none } =
      { DistrictCourt.parse_case_history doc with petitioners := [] }) ∧
    (DistrictCourt.parse_case_history { doc with respondent_table := none } =
      { DistrictCourt.parse_case_history doc with respondents := [] }) ∧
    (DistrictCourt.parse_case_history { doc with acts_table := none } =
      { DistrictCourt.parse_case_history doc with acts := [] }) ∧
    (DistrictCourt.parse_case_history { doc with lower_court_table := none } =
      { DistrictCourt.parse_case_history doc with subordinate_court := [] }) ∧
    (DistrictCourt.parse_case_history { doc with history_table := none } =
      { DistrictCourt.parse_case_history doc with hearings := [] }) ∧
    (DistrictCourt.parse_case_history { doc with order_table := none } =
      { DistrictCourt.parse_case_history doc with orders := [] }) ∧
    (doc.case_details_table = none → (DistrictCourt.parse_case_history doc).case_details = []) ∧
    (doc.case_status_table = none → (DistrictCourt.parse_case_history doc).case_status = []) ∧
    (doc.petitioner_table = none → (DistrictCourt.parse_case_history doc).petitioners = []) ∧
    (doc.respondent_table = none → (DistrictCourt.parse_case_history doc).respondents = []) ∧
    (doc.acts_table = none → (DistrictCourt.parse_case_history doc).acts = []) ∧
    (doc.lower_court_table = none →
      (DistrictCourt.parse_case_history doc).subordinate_court = []) ∧
    (doc.history_table = none → (DistrictCourt.parse_case_history doc).hearings = []) ∧
    (doc.order_table = none → (DistrictCourt.parse_case_history doc).orders = []) ∧
    (∃ r, HighCourt.parse_case_history doc2 = .ok r ∧
      (doc2.case_details_table = none → r.case_details = []) ∧
      (doc2.table_r = none → r.case_status = []) ∧
      (doc2.petitioner_span = none → r.petitioner = none) ∧
      (doc2.respondent_span = none → r.respondent = none) ∧
      (doc2.order_table = none → r.orders = [])) := by
  refine ⟨rfl, rfl, rfl, rfl, rfl, rfl, rfl, rfl,
    ?_, ?_, ?_, ?_, ?_, ?_, ?_, ?_, ?_⟩
  · intro h
    simp [DistrictCourt.parse_case_history, h]
  · intro h
    simp [DistrictCourt.parse_case_history, h]
  · intro h
    simp [DistrictCourt.parse_case_history, h]
  · intro h
    simp [DistrictCourt.parse_case_history, h]
  · intro h
    simp [DistrictCourt.parse_case_history, h]
  · intro h
    simp [DistrictCourt.parse_case_history, h]
  · intro h
    simp [DistrictCourt.parse_case_history, h]
  · intro h
    simp [DistrictCourt.parse_case_history, h]
  · have hmain : HighCourt.parse_case_history doc2 =
        .ok { case_details := match doc2.case_details_table with
                | some t => HighCourt.hcDetailsOf t
                | none => []
              case_status := match doc2.table_r with
                | some t => HighCourt.hcStatusOf t
                | none => []
              petitioner := doc2.petitioner_span
              respondent := doc2.respondent_span
              orders := match doc2.order_table with
                | some rows => HighCourt.hcOrdersOf rows
                | none => [] } := by
      unfold HighCourt.parse_case_history
      rw [if_neg (by simp [hr])]
    refine ⟨_, hmain, ?_, ?_, ?_, ?_, ?_⟩ <;> intro h <;> simp [h]

/-- Witness for C8: the High Court conjunct at the all-empty documents,
discharging the no-raise hypothesis concretely. -/
theorem parse_missing_tables_tolerated_witness :
    ∃ r, HighCourt.parse_case_history {} = .ok r ∧
      (({} : HighCourt.HcHtml).case_details_table = none → r.case_details = []) ∧
      (({} : HighCourt.HcHtml).table_r = none → r.case_status = []) ∧
      (({} : HighCourt.HcHtml).petitioner_span = none → r.petitioner = none) ∧
      (({} : HighCourt.HcHtml).respondent_span = none → r.respondent = none) ∧
      (({} : HighCourt.HcHtml).order_table = none → r.orders = []) :=
  (parse_missing_tables_tolerated {} {} rfl).2.2.2.2.2.2.2.2.2.2.2.2.2.2.2.2

/-- The forward scan never moves backwards. -/
theorem fwdScanAux_ge (lines : List String) :
    ∀ (fuel cnt ce : Nat), ce ≤ CauseList.fwdScanAux lines fuel cnt ce := by
  intro fuel
  induction fuel with
  | zero => intro cnt ce; exact Nat.le_refl ce
  | succ n ih =>
      intro cnt ce
      unfold CauseList.fwdScanAux
      by_cases hce : ce < lines.length
      · rw [if_pos hce]
        dsimp only
        split_ifs
        any_goals exact Nat.le_refl ce
        · exact Nat.le_trans (Nat.le_succ ce) (ih _ _)
        · exact Nat.le_trans (Nat.le_succ ce) (ih _ _)
      · rw [if_neg hce]

/-- The forward scan at full fuel never moves backwards. -/
theorem fwdScan_ge (lines : List String) (cnt ce : Nat) :
    ce ≤ CauseList.fwdScan lines cnt ce :=
  fwdScanAux_ge lines _ cnt ce

/-- The backward scan never moves forward. -/
theorem backScan_le (lines : List String) : ∀ i, CauseList.backScan lines i ≤ i := by
  intro i
  induction i with
  | zero => exact Nat.le_refl 0
  | succ n ih =>
      unfold CauseList.backScan
      by_cases hb : CauseList.backBreak lines (n + 1) = true
      · rw [if_pos hb]
      · rw [if_neg hb]
        exact Nat.le_trans ih (Nat.le_succ n)

/-- The backward scan never crosses a position where the break test fires. -/
theorem backScan_ge_of_break (lines : List String) (b : Nat)
    (hb : CauseList.backBreak lines b = true) :
    ∀ i, b ≤ i → b ≤ CauseList.backScan lines i := by
  intro i
  induction i with
  | zero => intro h; simpa [CauseList.backScan] using h
  | succ n ih =>
      intro h
      unfold CauseList.backScan
      by_cases hbr : CauseList.backBreak lines (n + 1) = true
      · rw [if_pos hbr]; exact h
      · rw [if_neg hbr]
        apply ih
        rcases Nat.lt_or_ge b (n + 1) with hlt | hge
        · omega
        · exfalso
          have hbe : b = n + 1 := by omega
          rw [hbe] at hb
          exact hbr hb

/-- Every match the scan loop produces starts strictly after any boundary
position b at which the break test fires, provided no line before b matches;
and its span is well formed (start at most end). -/
theorem searchLoopAux_spans (term : String) (isP : Bool) (lines : List String) (b : Nat)
    (hb : CauseList.backBreak lines b = true)
    (hno : ∀ j, j < b → CauseList.lineMatches term isP (lines.getD j "") = false) :
    ∀ (fuel i : Nat), ∀ m ∈ CauseList.searchLoopAux term isP lines fuel i,
      b < m.start_line ∧ m.start_line ≤ m.end_line := by
  intro fuel
  induction fuel with
  | zero => intro i m hm; simp [CauseList.searchLoopAux] at hm
  | succ n ih =>
      intro i m hm
      unfold CauseList.searchLoopAux at hm
      by_cases hlen : i < lines.length
      · rw [if_pos hlen] at hm
        dsimp only at hm
        by_cases hmatch : CauseList.lineMatches term isP (lines.getD i "") = true
        · rw [if_pos hmatch] at hm
          rcases List.mem_cons.mp hm with rfl | hm'
          · have hbi : b ≤ i := by
              by_contra hcon
              push_neg at hcon
              rw [hno i hcon] at hmatch
              exact Bool.false_ne_true hmatch
            have h0 := backScan_ge_of_break lines b hb i hbi
            have h1 := backScan_le lines i
            have h2 := fwdScan_ge lines 0 (i + 1)
            dsimp only
            omega
          · exact ih _ m hm'
        · rw [if_neg hmatch] at hm
          exact ih _ m hm
      · rw [if_neg hlen] at hm
        simp at hm

/-- The scan loop returns at least one match when a matching line lies at or
after the start position. -/
theorem searchLoopAux_ne_nil (term : String) (isP : Bool) (lines : List String) :
    ∀ (fuel i j : Nat), i ≤ j → j < lines.length →
      CauseList.lineMatches term isP (lines.getD j "") = true →
      lines.length - i ≤ fuel →
      CauseList.searchLoopAux term isP lines fuel i ≠ [] := by
  intro fuel
  induction fuel with
  | zero => intro i j hij hj hm hfuel; omega
  | succ n ih =>
      intro i j hij hj hm hfuel
      unfold CauseList.searchLoopAux
      have hlen : i < lines.length := Nat.lt_of_le_of_lt hij hj
      rw [if_pos hlen]
      dsimp only
      by_cases hmatch : CauseList.lineMatches term isP (lines.getD i "") = true
      · rw [if_pos hmatch]
        simp
      · rw [if_neg hmatch]
        refine ih (i + 1) j ?_ hj hm (by omega)
        rcases Nat.eq_or_lt_of_le hij with rfl | hlt
        · exact absurd hm hmatch
        · omega

/-- C9: for every cause-list text splitting into two case entries separated by
a pair of blank lines, with the search term matched by no line of the first
entry or the separators and by some line of the second entry,
search_case_in_text returns at least one match, and the captured span of every
returned match starts after the blank-line pair — so it excludes every line of
the first entry. -/
theorem search_span_excludes_first_entry (term : String) (isP : Bool) (text : String)
    (e1 e2 : List String) (s1 s2 : String)
    (hsplit : pySplit (Char.ofNat 10) text = e1 ++ s1 :: s2 :: e2)
    (hs1 : pyStrip s1 = "") (hs2 : pyStrip s2 = "")
    (hno : ∀ l ∈ e1 ++ [s1, s2], CauseList.lineMatches term isP l = false)
    (hyes : ∃ l ∈ e2, CauseList.lineMatches term isP l = true) :
    CauseList.search_case_in_text term text isP ≠ [] ∧
    ∀ m ∈ CauseList.search_case_in_text term text isP,
      e1.length + 2 < m.start_line ∧ m.start_line ≤ m.end_line := by
  unfold CauseList.search_case_in_text
  rw [hsplit]
  have hgd0 : (e1 ++ s1 :: s2 :: e2).getD e1.length "" = s1 := by
    rw [List.getD_append_right _ _ _ _ (Nat.le_refl _)]
    simp
  have hgd1 : (e1 ++ s1 :: s2 :: e2).getD (e1.length + 1) "" = s2 := by
    rw [List.getD_append_right _ _ _ _ (by omega)]
    have h1 : e1.length + 1 - e1.length = 1 := by omega
    rw [h1]
    rfl
  have hb : CauseList.backBreak (e1 ++ s1 :: s2 :: e2) (e1.length + 2) = true := by
    unfold CauseList.backBreak
    have h1 : e1.length + 2 - 1 = e1.length + 1 := by omega
    have h2 : e1.length + 2 - 2 = e1.length := by omega
    rw [h1, h2, hgd0, hgd1, hs1, hs2]
    have h3 : decide (1 < e1.length + 2) = true := decide_eq_true (by omega)
    simp [h3]
  have hno' : ∀ j, j < e1.length + 2 →
      CauseList.lineMatches term isP ((e1 ++ s1 :: s2 :: e2).getD j "") = false := by
    intro j hj
    rcases Nat.lt_or_ge j e1.length with hlt | hge
    · rw [List.getD_append _ _ _ _ hlt]
      apply hno
      apply List.mem_append_left
      rw [List.getD_eq_getElem _ _ hlt]
      exact List.getElem_mem _
    · have hcase : j = e1.length ∨ j = e1.length + 1 := by omega
      rcases hcase with rfl | rfl
      · rw [hgd0]
        exact hno s1 (by simp)
      · rw [hgd1]
        exact hno s2 (by simp)
  constructor
  · obtain ⟨l, hl, hm⟩ := hyes
    obtain ⟨k, hk, hkl⟩ := List.getElem_of_mem hl
    have hjlen : e1.length + 2 + k < (e1 ++ s1 :: s2 :: e2).length := by
      simp [List.length_append]
      omega
    have hjmatch : CauseList.lineMatches term isP
        ((e1 ++ s1 :: s2 :: e2).getD (e1.length + 2 + k) "") = true := by
      rw [List.getD_append_right _ _ _ _ (by omega)]
      have h4 : e1.length + 2 + k - e1.length = k + 2 := by omega
      rw [h4]
      show CauseList.lineMatches term isP (e2.getD k "") = true
      rw [List.getD_eq_getElem _ _ hk, hkl]
      exact hm
    exact searchLoopAux_ne_nil term isP (e1 ++ s1 :: s2 :: e2) _ 0 (e1.length + 2 + k)
      (Nat.zero_le _) hjlen hjmatch (by omega)
  · intro m hm
    exact searchLoopAux_spans term isP (e1 ++ s1 :: s2 :: e2) (e1.length + 2) hb hno' _ 0 m hm

/-- Witness for C9 at a concrete two-entry cause-list text: the search term
Ram occurs only in the second entry, a match is returned, and the head match's
span starts after the first entry's two lines and the blank pair. -/
theorem search_span_excludes_first_entry_witness :
    CauseList.search_case_in_text "Ram"
      "1) CIVIL 100\nJohn Doe\n\n\nAppeal of 2020\nRam Kumar vs State\nmore detail" true ≠ [] ∧
    ((["1) CIVIL 100", "John Doe"] : List String).length + 2 <
        ((CauseList.search_case_in_text "Ram"
          "1) CIVIL 100\nJohn Doe\n\n\nAppeal of 2020\nRam Kumar vs State\nmore detail"
          true).getD 0 ⟨0, "", "", 0, 0⟩).start_line ∧
      ((CauseList.search_case_in_text "Ram"
          "1) CIVIL 100\nJohn Doe\n\n\nAppeal of 2020\nRam Kumar vs State\nmore detail"
          true).getD 0 ⟨0, "", "", 0, 0⟩).start_line ≤
        ((CauseList.search_case_in_text "Ram"
          "1) CIVIL 100\nJohn Doe\n\n\nAppeal of 2020\nRam Kumar vs State\nmore detail"
          true).getD 0 ⟨0, "", "", 0, 0⟩).end_line) := by
  have h := search_span_excludes_first_entry "Ram" true
    "1) CIVIL 100\nJohn Doe\n\n\nAppeal of 2020\nRam Kumar vs State\nmore detail"
    ["1) CIVIL 100", "John Doe"] ["Appeal of 2020", "Ram Kumar vs State", "more detail"]
    "" "" (by decide) rfl rfl (by decide) (by decide)
  exact ⟨h.1, h.2 _ (by decide)⟩
